import Mathlib

/-!
Shallow embedding of the Search-It enrichment pipeline
(`src/data_processing.py` and `src/app.py`).

External effects are made explicit:
* a Python runtime value (the raw search payloads, responses of
  `search.get_dict()`) is a `Val`;
* the network is an environment function giving, per attempt index, either an
  exception (`Except.error`) or a returned value, so the retry loops become
  pure functions of that environment;
* a function that can raise a Python exception returns `Except String α`;
* the NER model `nlp` is abstracted by the ordered list of spans
  (`doc.ents`, label and text) that it yields on the input text.
-/

/-- A Python runtime value, as far as the pipeline inspects one: `None`,
strings, integers, lists and (string-keyed) dicts. -/
inductive Val where
  | none : Val
  | str : String → Val
  | int : Int → Val
  | list : List Val → Val
  | dict : List (String × Val) → Val

/-- Python truthiness (`bool(v)`): `None`, `""`, `0`, `[]`, `{}` are falsy. -/
def truthyVal : Val → Bool
  | Val.none => false
  | Val.str s => !(s == "")
  | Val.int n => !(n == 0)
  | Val.list l => !l.isEmpty
  | Val.dict d => !d.isEmpty

/-- Python `isinstance(v, list)`. -/
def Val.isList : Val → Bool
  | Val.list _ => true
  | _ => false

/-- The entries of a list value (`[]` on anything else). -/
def Val.items : Val → List Val
  | Val.list l => l
  | _ => []

/-- Lookup in a dict: `d[k]` / `k in d` combined, as an `Option`. -/
def dictFindV (d : List (String × Val)) (k : String) : Option Val :=
  (d.find? (fun p => p.1 == k)).map (fun p => p.2)

/-- Python `d.get(k, dflt)`: the stored value when the key is present (even
when that value is `None`), the default otherwise. -/
def dictGetD (d : List (String × Val)) (k : String) (dflt : Val) : Val :=
  (dictFindV d k).getD dflt

/-! ### Python string helpers -/

/-- The whitespace characters removed by Python `str.strip()` (ASCII part). -/
def isPySpace (c : Char) : Bool :=
  c == ' ' || c == '\t' || c == '\n' || c == '\r' ||
  c == Char.ofNat 11 || c == Char.ofNat 12

/-- Drop leading whitespace. -/
def trimLeftC (l : List Char) : List Char := l.dropWhile isPySpace

/-- Drop trailing whitespace. -/
def trimRightC (l : List Char) : List Char :=
  (l.reverse.dropWhile isPySpace).reverse

/-- Python `str.strip()` on a character list. -/
def stripC (l : List Char) : List Char := trimRightC (trimLeftC l)

/-- Python `str.strip()`. -/
def pyStrip (s : String) : String := String.mk (stripC s.data)

/-- Python `str.lower()` (character-wise). -/
def pyLower (s : String) : String := String.mk (s.data.map Char.toLower)

/-- Test `chStarts needle hay`: `hay` starts with `needle`. -/
def chStarts : List Char → List Char → Bool
  | [], _ => true
  | _ :: _, [] => false
  | a :: as, b :: bs => a == b && chStarts as bs

/-- Test `chOccurs needle hay`: `needle` occurs contiguously in `hay`. -/
def chOccurs (needle : List Char) : List Char → Bool
  | [] => chStarts needle []
  | c :: rest => chStarts needle (c :: rest) || chOccurs needle rest

/-- Python `needle in hay` on strings. -/
def strIn (needle hay : String) : Bool := chOccurs needle.data hay.data

/-! ### `classify_query` (`data_processing.py` lines 214-263) -/

/-- The classifier `classify_query`: ordered keyword rules over the
lower-cased template. -/
def classify_query (query : String) : String :=
  let query_lower := pyLower query
  if strIn "net worth" query_lower then "Net Worth"
  else if strIn "age" query_lower || strIn "born" query_lower then "Age"
  else if strIn "career" query_lower || strIn "biography" query_lower then "Biography"
  else if strIn "parents" query_lower || strIn "family" query_lower then "Family Information"
  else if strIn "job" query_lower || strIn "career" query_lower then "Career"
  else if strIn "education" query_lower || strIn "school" query_lower then "Education"
  else if strIn "married" query_lower || strIn "spouse" query_lower then "Personal Life"
  else if strIn "award" query_lower || strIn "achievement" query_lower then "Awards & Achievements"
  else if strIn "history" query_lower || strIn "background" query_lower then "Company Info"
  else if strIn "product" query_lower || strIn "service" query_lower then "Product Info"
  else if strIn "news" query_lower || strIn "latest" query_lower then "News"
  else if strIn "social media" query_lower || strIn "twitter" query_lower || strIn "instagram" query_lower then "Social Media"
  else if strIn "charity" query_lower || strIn "philanthropy" query_lower then "Philanthropy"
  else if strIn "property" query_lower || strIn "real estate" query_lower then "Real Estate"
  else if strIn "health" query_lower || strIn "condition" query_lower then "Health"
  else if strIn "event" query_lower || strIn "conference" query_lower then "Events"
  else if strIn "fruit" query_lower || strIn "vegetable" query_lower then "Fruit"
  else "Miscellaneous"

/-! ### `preprocess_search_results` (`data_processing.py` lines 265-287) -/

/-- A cleaned search result, `{"title": ..., "url": ..., "snippet": ...}`. -/
structure SearchHit where
  title : String
  url : String
  snippet : String
deriving DecidableEq, Repr

/-- Python `v.strip()`: succeeds on a string, raises `AttributeError` on any
other value (in particular on `None`). -/
def pyStripAttr : Val → Except String String
  | Val.str s => Except.ok (pyStrip s)
  | _ => Except.error "AttributeError"

/-- One iteration body of the `preprocess_search_results` loop on a
dict-shaped entry: `result.get(key, "").strip()` for the three keys, in the
evaluation order of the dict literal. -/
def cleanHit (d : List (String × Val)) : Except String SearchHit := do
  let title ← pyStripAttr (dictGetD d "title" (Val.str ""))
  let url ← pyStripAttr (dictGetD d "url" (Val.str ""))
  let snippet ← pyStripAttr (dictGetD d "snippet" (Val.str ""))
  pure ⟨title, url, snippet⟩

/-- The `for result in results` loop: dict entries are cleaned and appended,
non-dict entries are silently skipped; a raised `AttributeError` propagates. -/
def cleanItems : List Val → Except String (List SearchHit)
  | [] => Except.ok []
  | Val.dict d :: rest => do
      let h ← cleanHit d
      let t ← cleanItems rest
      pure (h :: t)
  | _ :: rest => cleanItems rest

/-- The preprocessor `preprocess_search_results`: `if not results or not
isinstance(results, list): return []`, then the cleaning loop. -/
def preprocess_search_results (results : Val) : Except String (List SearchHit) :=
  if !truthyVal results || !results.isList then Except.ok []
  else cleanItems results.items

/-! ### Retry loops

`search_entity_info` and `extract_information_with_groq` both run
`for attempt in range(MAX_RETRIES)` with `time.sleep(RETRY_DELAY * (2 **
attempt))` after a failed non-final attempt.  `retryAux env wrap fallback
attempt fuel` runs the remaining `fuel` iterations starting at index
`attempt` (the loop itself is `retryAux env wrap fallback 0 MAX_RETRIES`);
`env attempt` is the outcome of the attempt's try-body, `wrap` is the message
of the terminal `raise Exception(...)`, and `fallback` is what the function
yields when the loop finishes without returning or raising. -/

def MAX_RETRIES : Nat := 3

def RETRY_DELAY : Nat := 2

/-- Trace of one retry-wrapped call: the returned value or raised error, the
list of back-off sleeps performed (in seconds, in order), and the number of
attempts made. -/
structure RunResult (α : Type) where
  result : Except String α
  sleeps : List Nat
  attempts : Nat
deriving Repr

def retryAux (env : Nat → Except String α) (wrap : String → String)
    (fallback : Except String α) : Nat → Nat → RunResult α
  | _, 0 => ⟨fallback, [], 0⟩
  | attempt, fuel + 1 =>
    match env attempt with
    | Except.ok v => ⟨Except.ok v, [], 1⟩
    | Except.error e =>
      if fuel = 0 then ⟨Except.error (wrap e), [], 1⟩
      else
        let r := retryAux env wrap fallback (attempt + 1) fuel
        ⟨r.result, RETRY_DELAY * 2 ^ attempt :: r.sleeps, r.attempts + 1⟩

/-! ### `search_entity_info` (`data_processing.py` lines 82-122) -/

/-- The parameter dict handed to `GoogleSearch` (in particular
`"num": 10`: ten results are requested, nothing is truncated client-side). -/
def search_params (entity : String) : Val :=
  Val.dict [("q", Val.str entity), ("num", Val.int 10), ("hl", Val.str "en"),
    ("gl", Val.str "us"), ("filter", Val.str "1")]

/-- The entries of one result-comprehension dict:
`{"title": result.get("title", "N/A"), "url": result.get("link", "N/A"),
"snippet": result.get("snippet", "N/A")}`. -/
def normEntries (d : List (String × Val)) : List (String × Val) :=
  [("title", dictGetD d "title" (Val.str "N/A")),
    ("url", dictGetD d "link" (Val.str "N/A")),
    ("snippet", dictGetD d "snippet" (Val.str "N/A"))]

/-- One entry of the result comprehension, as a dict value. -/
def rawHitD (d : List (String × Val)) : Val :=
  Val.dict (normEntries d)

/-- The comprehension entry on an arbitrary value: a non-dict entry raises
`AttributeError` (no `.get`). -/
def normalizeHit : Val → Except String Val
  | Val.dict d => Except.ok (rawHitD d)
  | _ => Except.error "AttributeError"

/-- The list comprehension over `results["organic_results"]`. -/
def normalizeHits : List Val → Except String (List Val)
  | [] => Except.ok []
  | v :: rest => do
      let h ← normalizeHit v
      let t ← normalizeHits rest
      pure (h :: t)

/-- The try-body of `search_entity_info` applied to a `get_dict()` response:
if `"organic_results" in results and results["organic_results"]` build the
hit list, else return `[]`; iterating a non-list or indexing a non-dict
raises. -/
def searchBody (response : Val) : Except String (List Val) :=
  match response with
  | Val.dict d =>
    match dictFindV d "organic_results" with
    | some org =>
        if truthyVal org then
          match org with
          | Val.list items => normalizeHits items
          | _ => Except.error "TypeError"
        else Except.ok []
    | Option.none => Except.ok []
  | _ => Except.error "TypeError"

/-- The search client `search_entity_info entity net`: `net attempt` is the outcome of
`search.get_dict()` on that attempt (the request parameters are
`search_params entity`).  The final `return []` after the loop is the
fallback. -/
def search_entity_info (entity : String) (net : Nat → Except String Val) :
    RunResult (List Val) :=
  let _params := search_params entity
  retryAux (fun attempt => net attempt >>= searchBody)
    (fun e => "Error performing search: " ++ e) (Except.ok []) 0 MAX_RETRIES

/-! ### `extract_information_with_groq` (`data_processing.py` lines 139-192) -/

/-- Query builder `generate_query`: substitute the entity into the
template's placeholder. -/
def generate_query (entity : String) (query_template : String) : String :=
  query_template.replace "{entity}" entity

/-- The `search_context` block: one paragraph per result, Title/URL/Snippet
on separate lines, double-newline separated. -/
def search_context (search_results : List SearchHit) : String :=
  String.intercalate "\n\n" (search_results.map (fun r =>
    "Title: " ++ r.title ++ "\nURL: " ++ r.url ++ "\nSnippet: " ++ r.snippet))

/-- The f-string prompt of `extract_information_with_groq`. -/
def groq_prompt (entity : String) (search_results : List SearchHit)
    (query_template : String) (query_type : String) : String :=
  let query := query_template.replace "{entity}" entity
  "\n    Task: Extract the most relevant information for the following query based on the search results.\n\n    Query: \"" ++
    query ++ "\"\n    Entity: " ++ entity ++ "\n    Query Type: " ++ query_type ++
    "\n\n    Search Results:\n    " ++ search_context search_results ++
    "\n\n    Instructions:\n    - If you find the exact answer, provide it directly in one word.\n    - If relevant information is partially available, summarize the context.\n    - If no relevant information is available, return: \"Data not found.\"\n    - Ensure the response is concise and accurate.\n    "

/-- The extraction call `extract_information_with_groq entity search_results query_template
query_type net`: `net attempt prompt` is the outcome (returned message
content, or raised exception) of `client.chat.completions.create(...)` on
that attempt.  On success the content is `.strip()`-ed; the value is
`Option String` because the function implicitly returns `None` when the
loop falls through (never reached: the final failed attempt raises). -/
def extract_information_with_groq (entity : String)
    (search_results : List SearchHit) (query_template : String)
    (query_type : String) (net : Nat → String → Except String String) :
    RunResult (Option String) :=
  let prompt := groq_prompt entity search_results query_template query_type
  retryAux (fun attempt => (net attempt prompt).map (fun content => some (pyStrip content)))
    (fun e => "Error calling Groq API: " ++ e) (Except.ok Option.none) 0 MAX_RETRIES

/-! ### `perform_ner` (`data_processing.py` lines 197-211)

The SpaCy model `nlp` is an external collaborator; it is abstracted by the
ordered list of spans `doc.ents` it produces on the input text, each span
carrying its `label_` and `text`. -/

/-- One span of `doc.ents`: its `label_` and its `text`. -/
structure EntSpan where
  label : String
  text : String
deriving DecidableEq, Repr

/-- Python dict assignment `m[k] = v`: overwrite in place when the key is
present, append otherwise. -/
def pyDictSet (m : List (String × String)) (k v : String) :
    List (String × String) :=
  if m.any (fun p => p.1 == k) then
    m.map (fun p => if p.1 == k then (k, v) else p)
  else m ++ [(k, v)]

/-- Lookup in the insertion-ordered dict built by `pyDictSet`. -/
def pyDictFind (m : List (String × String)) (k : String) : Option String :=
  (m.find? (fun p => p.1 == k)).map (fun p => p.2)

/-- The extractor `perform_ner`, given the spans the NER model yields on the text:
`entities[ent.label_] = ent.text` for each span in order. -/
def perform_ner (ents : List EntSpan) : List (String × String) :=
  ents.foldl (fun entities ent => pyDictSet entities ent.label ent.text) []

/-! ### The orchestrator (`app.py`)

`safe_api_call` (lines 38-49) and the per-entity loop of
`Run Search and Extract Information` (lines 267-311). -/

def RATE_LIMIT_DELAY : Nat := 2

/-- The outer retry wrapper `safe_api_call`: up to `MAX_RETRIES` attempts, sleeping
`RATE_LIMIT_DELAY * (2 ** attempt)` between failed attempts, returning the
call's value on success and `None` when every attempt raised.  Same
fuel/index scheme as `retryAux`; the pair is (returned value, sleeps). -/
def safeAux (env : Nat → Except String α) : Nat → Nat → Option α × List Nat
  | _, 0 => (Option.none, [])
  | attempt, fuel + 1 =>
    match env attempt with
    | Except.ok v => (some v, [])
    | Except.error _ =>
      if fuel = 0 then (Option.none, [])
      else
        let r := safeAux env (attempt + 1) fuel
        (r.1, RATE_LIMIT_DELAY * 2 ^ attempt :: r.2)

def safe_api_call (env : Nat → Except String α) : Option α × List Nat :=
  safeAux env 0 MAX_RETRIES

/-- One row of the result table assembled by the loop. -/
structure Row where
  entity : String
  extractedInformation : String
  searchTitle : String
  searchUrl : String
  searchSnippet : String
  nerResults : List (String × String)
  queryType : String
deriving DecidableEq, Repr

/-- The per-entity environment: the entity cell, the spans the NER model
yields on it, and the network outcomes — `searchNet i` is the `get_dict()`
environment seen by `search_entity_info` inside outer attempt `i` of
`safe_api_call`, and `groqNet i` likewise for the Groq call. -/
structure EntityInput where
  entity : String
  nerEnts : List EntSpan
  searchNet : Nat → Nat → Except String Val
  groqNet : Nat → Nat → String → Except String String

/-- The search step of the loop: `safe_api_call(search_entity_info, entity)`
— each outer attempt runs the full inner retry loop of
`search_entity_info`. -/
def searchCall (inp : EntityInput) : Nat → Except String (List Val) :=
  fun i => (search_entity_info inp.entity (inp.searchNet i)).result

/-- The extraction step: `safe_api_call(extract_information_with_groq,
entity, preprocessed_results, query_template, query_type)`. -/
def groqCall (inp : EntityInput) (preprocessed : List SearchHit)
    (query_template : String) (query_type : String) :
    Nat → Except String (Option String) :=
  fun i => (extract_information_with_groq inp.entity preprocessed
    query_template query_type (inp.groqNet i)).result

/-- Python `extracted_info or "Failed to extract"`: `or` replaces a falsy
value (`None`, or the empty string) by the fallback. -/
def pyOrFailed : Option (Option String) → String
  | some (some s) => if s == "" then "Failed to extract" else s
  | _ => "Failed to extract"

/-- The column join `", ".join([result.get(key, "") for result in
preprocessed_results])`. -/
def joinField (f : SearchHit → String) (preprocessed : List SearchHit) : String :=
  String.intercalate ", " (preprocessed.map f)

/-- One iteration of the `for entity in data[primary_column]` loop: NER,
query classification, search with outer retry, then either the
preprocess-and-extract branch (`if web_result:`) or the
"No search results found" row.  An exception raised by
`preprocess_search_results` is not caught anywhere and aborts the run, hence
the `Except`. -/
def processEntity (query_template : String) (inp : EntityInput) :
    Except String Row :=
  let ner_results := perform_ner inp.nerEnts
  let query_type := classify_query query_template
  let web_result := (safe_api_call (searchCall inp)).1
  match web_result with
  | some (x :: xs) => do
      let preprocessed ← preprocess_search_results (Val.list (x :: xs))
      let extracted_info := (safe_api_call
        (groqCall inp preprocessed query_template query_type)).1
      Except.ok ⟨inp.entity, pyOrFailed extracted_info,
        joinField (fun r => r.title) preprocessed,
        joinField (fun r => r.url) preprocessed,
        joinField (fun r => r.snippet) preprocessed,
        ner_results, query_type⟩
  | _ =>
      Except.ok ⟨inp.entity, "No search results found", "", "", "",
        ner_results, query_type⟩

/-- The whole `Run Search and Extract Information` loop: rows are appended
in input order; an uncaught exception in one iteration aborts the run. -/
def runPipeline (query_template : String) : List EntityInput → Except String (List Row)
  | [] => Except.ok []
  | inp :: rest => do
      let row ← processEntity query_template inp
      let rows ← runPipeline query_template rest
      pure (row :: rows)

/-! ### Derived notions used by the statements below -/

/-- Re-inject a cleaned hit as the Python dict
`{"title": ..., "url": ..., "snippet": ...}` that
`preprocess_search_results` built for it. -/
def hitVal (h : SearchHit) : Val :=
  Val.dict [("title", Val.str h.title), ("url", Val.str h.url),
    ("snippet", Val.str h.snippet)]

/-- A hit all of whose fields are unchanged by `str.strip()`. -/
def StripFixed (h : SearchHit) : Prop :=
  pyStrip h.title = h.title ∧ pyStrip h.url = h.url ∧
    pyStrip h.snippet = h.snippet

/-- The normalization path of the pipeline: the hit dicts produced by
`search_entity_info` fed to `preprocess_search_results`, as in the
`Run Search and Extract Information` loop. -/
def searchThenPreprocess (entity : String) (net : Nat → Except String Val) :
    Except String (List SearchHit) := do
  let hits ← (search_entity_info entity net).result
  preprocess_search_results (Val.list hits)

/-- The per-result path of that pipeline: one raw organic result is
normalized by the comprehension of `search_entity_info` and then cleaned by
the loop body of `preprocess_search_results`. -/
def pipelineHit (d : List (String × Val)) : Except String SearchHit :=
  cleanHit (normEntries d)

/-- A provider response carrying eleven organic results (the request asks
for ten, but the provider chooses the count). -/
def resp11 : Val :=
  Val.dict [("organic_results",
    Val.list (List.replicate 11 (Val.dict [("title", Val.str "T")])))]

/-- An entity whose search fails on every attempt, inner and outer. -/
def c4inp : EntityInput :=
  ⟨"Ghost", [⟨"ORG", "Ghost"⟩], fun _ _ => Except.error "connection reset",
    fun _ _ _ => Except.error "429"⟩

/-- An entity whose search succeeds at once with one organic result but
whose Groq call fails on every attempt. -/
def c10inp : EntityInput :=
  ⟨"Acme", [⟨"ORG", "Acme"⟩],
    fun _ _ => Except.ok (Val.dict [("organic_results",
      Val.list [Val.dict [("title", Val.str "A"), ("link", Val.str "http://a"),
        ("snippet", Val.str "about A")]])]),
    fun _ _ _ => Except.error "429"⟩


/-! ## Theorems -/

/-- When every attempt's body raises, the retry loop sleeps 2 s then 4 s,
makes three attempts and raises the wrapped error of the last attempt. -/
theorem retryAux_allFail {α : Type} (env : Nat → Except String α)
    (wrap : String → String) (fallback : Except String α) (es : Nat → String)
    (h : ∀ i, i < MAX_RETRIES → env i = Except.error (es i)) :
    retryAux env wrap fallback 0 MAX_RETRIES =
      ⟨Except.error (wrap (es 2)), [2, 4], 3⟩ := by
  have h0 := h 0 (by decide)
  have h1 := h 1 (by decide)
  have h2 := h 2 (by decide)
  simp [MAX_RETRIES, RETRY_DELAY, retryAux, h0, h1, h2]

/-- When an attempt's body succeeds, the retry loop returns at once: no
sleeps, one attempt. -/
theorem retryAux_firstOk {α : Type} (env : Nat → Except String α)
    (wrap : String → String) (fallback : Except String α) (a fuel : Nat)
    (v : α) (h : env a = Except.ok v) :
    retryAux env wrap fallback a (fuel + 1) = ⟨Except.ok v, [], 1⟩ := by
  simp [retryAux, h]

/-- Claim C1: a search or LLM-extraction call that fails on every attempt
makes exactly three attempts, sleeping 2 s after the first failed attempt
and 4 s after the second (no delay after the final attempt), and then
raises a terminal error. -/
theorem claim_c1 (entity : String) (pre : List SearchHit)
    (query_template query_type : String)
    (netS : Nat → Except String Val)
    (netG : Nat → String → Except String String) (eS eG : Nat → String)
    (hS : ∀ i, i < MAX_RETRIES → netS i = Except.error (eS i))
    (hG : ∀ i, i < MAX_RETRIES → ∀ p, netG i p = Except.error (eG i)) :
    search_entity_info entity netS =
      ⟨Except.error ("Error performing search: " ++ eS 2), [2, 4], 3⟩ ∧
    extract_information_with_groq entity pre query_template query_type netG =
      ⟨Except.error ("Error calling Groq API: " ++ eG 2), [2, 4], 3⟩ := by
  constructor
  · rw [search_entity_info]
    exact retryAux_allFail _ _ _ eS (fun i hi => by rw [hS i hi]; rfl)
  · rw [extract_information_with_groq]
    exact retryAux_allFail _ _ _ eG (fun i hi => by rw [hG i hi _]; rfl)

/-- Witness for C1 at a concrete always-failing environment. -/
theorem claim_c1_witness :
    search_entity_info "Acme" (fun _ => Except.error "down") =
      ⟨Except.error ("Error performing search: " ++ "down"), [2, 4], 3⟩ ∧
    extract_information_with_groq "Acme" [] "net worth of {entity}" "Net Worth"
      (fun _ _ => Except.error "429") =
      ⟨Except.error ("Error calling Groq API: " ++ "429"), [2, 4], 3⟩ :=
  claim_c1 "Acme" [] "net worth of {entity}" "Net Worth"
    (fun _ => Except.error "down") (fun _ _ => Except.error "429")
    (fun _ => "down") (fun _ => "429")
    (fun _ _ => rfl) (fun _ _ _ => rfl)

/-- Claim C3: a template whose lower-cased form contains "career" and none
of the earlier rule keywords ("net worth", "age", "born") is classified
as Biography, because the Biography rule precedes the Career rule. -/
theorem claim_c3 (query : String)
    (hcareer : strIn "career" (pyLower query) = true)
    (hnetworth : strIn "net worth" (pyLower query) = false)
    (hage : strIn "age" (pyLower query) = false)
    (hborn : strIn "born" (pyLower query) = false) :
    classify_query query = "Biography" := by
  simp [classify_query, hcareer, hnetworth, hage, hborn]

/-- Witness for C3 at a concrete template. -/
theorem claim_c3_witness :
    strIn "career" (pyLower "Describe the CAREER of {entity}") = true ∧
    strIn "net worth" (pyLower "Describe the CAREER of {entity}") = false ∧
    strIn "age" (pyLower "Describe the CAREER of {entity}") = false ∧
    strIn "born" (pyLower "Describe the CAREER of {entity}") = false ∧
    classify_query "Describe the CAREER of {entity}" = "Biography" :=
  ⟨rfl, rfl, rfl, rfl, claim_c3 "Describe the CAREER of {entity}" rfl rfl rfl rfl⟩

/-- Claim C6: on any input that is not a non-empty list (`None`, a scalar,
a record, an empty list), `preprocess_search_results` returns `[]` and
raises nothing. -/
theorem claim_c6 (v : Val) (h : ∀ x xs, v ≠ Val.list (x :: xs)) :
    preprocess_search_results v = Except.ok [] := by
  cases v with
  | none => rfl
  | str s => simp [preprocess_search_results, Val.isList]
  | int n => simp [preprocess_search_results, Val.isList]
  | list l =>
    cases l with
    | nil => rfl
    | cons x xs => exact absurd rfl (h x xs)
  | dict d => simp [preprocess_search_results, Val.isList]

/-- Witness for C6 at `None`. -/
theorem claim_c6_witness :
    (∀ x xs, Val.none ≠ Val.list (x :: xs)) ∧
    preprocess_search_results Val.none = Except.ok [] :=
  ⟨fun _ _ h => Val.noConfusion h,
   claim_c6 Val.none (fun _ _ h => Val.noConfusion h)⟩

/-- Counterexample to C7 as stated: on the raw hit
`{"title": " Foo ", "snippet": None}` the preprocessor does not return the
cleaned hit — `result.get("snippet", "")` yields the stored `None` (the key
is present), and `None.strip()` raises `AttributeError`. -/
theorem claim_c7_counterexample :
    preprocess_search_results
        (Val.list [Val.dict [("title", Val.str " Foo "), ("snippet", Val.none)]]) =
      Except.error "AttributeError" ∧
    preprocess_search_results
        (Val.list [Val.dict [("title", Val.str " Foo "), ("snippet", Val.none)]]) ≠
      Except.ok [⟨"Foo", "", ""⟩] :=
  ⟨rfl, fun h => Except.noConfusion h⟩

/-- Claim C7 (amended): preprocessing the raw hit `{"title": " Foo "}` with
the snippet key absent (and url absent) yields
`{"title": "Foo", "url": "", "snippet": ""}` — trimming and
missing-key defaulting hold; a key present with value `None` instead
raises `AttributeError`. -/
theorem claim_c7 :
    preprocess_search_results (Val.list [Val.dict [("title", Val.str " Foo ")]]) =
      Except.ok [⟨"Foo", "", ""⟩] := rfl

/-- The comprehension on a list of dict-shaped organic results normalizes
each entry in order, one output hit per input entry. -/
theorem normalizeHits_dicts (items : List (List (String × Val))) :
    normalizeHits (items.map Val.dict) = Except.ok (items.map rawHitD) := by
  induction items with
  | nil => rfl
  | cons d rest ih =>
    simp [normalizeHits, normalizeHit, ih, Bind.bind, Except.bind, Pure.pure,
      Except.pure]

/-- Claim C2 (amended): `search_entity_info` returns one normalized hit per
organic result of the provider response — the request asks for ten
(`search_params`) but no cap is enforced client-side; when the response has
no organic results (key absent or empty) it returns `[]` on the first
attempt without raising, and this success case is distinct from the raised
error produced when every retry attempt fails. -/
theorem claim_c2 :
    (∀ (entity : String) (d : List (String × Val))
        (items : List (List (String × Val))),
      dictFindV d "organic_results" = some (Val.list (items.map Val.dict)) →
      items ≠ [] →
      (search_entity_info entity (fun _ => Except.ok (Val.dict d))).result =
          Except.ok (items.map rawHitD) ∧
        (items.map rawHitD).length = items.length) ∧
    (∀ (entity : String) (d : List (String × Val)),
      (dictFindV d "organic_results" = Option.none ∨
        dictFindV d "organic_results" = some (Val.list [])) →
      search_entity_info entity (fun _ => Except.ok (Val.dict d)) =
        ⟨Except.ok [], [], 1⟩) ∧
    (∀ (entity : String) (net : Nat → Except String Val) (es : Nat → String),
      (∀ i, i < MAX_RETRIES → net i = Except.error (es i)) →
      (search_entity_info entity net).result =
        Except.error ("Error performing search: " ++ es 2)) := by
  refine ⟨fun entity d items hfind hne => ?_, fun entity d h => ?_,
    fun entity net es h => ?_⟩
  · have htruthy : truthyVal (Val.list (items.map Val.dict)) = true := by
      cases items with
      | nil => exact absurd rfl hne
      | cons x xs => simp [truthyVal]
    constructor
    · simp [search_entity_info, MAX_RETRIES, retryAux, searchBody, hfind,
        htruthy, normalizeHits_dicts, Bind.bind, Except.bind]
    · exact List.length_map _ _
  · rcases h with h | h <;>
      simp [search_entity_info, MAX_RETRIES, retryAux, searchBody, h, truthyVal,
        Bind.bind, Except.bind]
  · rw [search_entity_info, retryAux_allFail _ _ _ es
      (fun i hi => by rw [h i hi]; rfl)]

/-- Witness for C2 at concrete responses: one organic result, a response
without the key, and an always-failing transport. -/
theorem claim_c2_witness :
    (search_entity_info "Acme"
        (fun _ => Except.ok (Val.dict [("organic_results",
          Val.list [Val.dict [("title", Val.str "A")]])]))).result =
      Except.ok [rawHitD [("title", Val.str "A")]] ∧
    search_entity_info "Acme"
        (fun _ => Except.ok (Val.dict [("search_metadata", Val.str "x")])) =
      ⟨Except.ok [], [], 1⟩ ∧
    (search_entity_info "Acme" (fun _ => Except.error "down")).result =
      Except.error ("Error performing search: " ++ "down") :=
  ⟨(claim_c2.1 "Acme"
      [("organic_results", Val.list [Val.dict [("title", Val.str "A")]])]
      [[("title", Val.str "A")]] rfl (List.cons_ne_nil _ _)).1,
   claim_c2.2.1 "Acme" [("search_metadata", Val.str "x")] (Or.inl rfl),
   claim_c2.2.2 "Acme" (fun _ => Except.error "down") (fun _ => "down")
     (fun _ _ => rfl)⟩

/-- Counterexample to C2 as stated: a response carrying eleven organic
results yields eleven hits — the ten-result cap is in the request
parameters only, not enforced on the response. -/
theorem claim_c2_counterexample :
    (search_entity_info "Acme Corp" (fun _ => Except.ok resp11)).result =
      Except.ok (List.replicate 11 (Val.dict [("title", Val.str "T"),
        ("url", Val.str "N/A"), ("snippet", Val.str "N/A")])) ∧
    ¬ ((List.replicate 11 (Val.dict [("title", Val.str "T"),
        ("url", Val.str "N/A"), ("snippet", Val.str "N/A")])).length ≤ 10) :=
  ⟨rfl, by simp⟩

/-- Counterexample to C9 as stated: an organic result with title, link and
snippet all absent flows through `search_entity_info` (defaults `"N/A"`) and
`preprocess_search_results` (which only trims), so the pipeline's hit fields
are `"N/A"`, not the empty string. -/
theorem claim_c9_counterexample :
    searchThenPreprocess "Acme"
        (fun _ => Except.ok (Val.dict [("organic_results",
          Val.list [Val.dict []])])) =
      Except.ok [⟨"N/A", "N/A", "N/A"⟩] ∧
    ("N/A" : String) ≠ "" :=
  ⟨rfl, by decide⟩

/-- A successful `cleanHit` binds each output field to the strip of the
corresponding `result.get(key, "")` lookup. -/
theorem cleanHit_fields (d : List (String × Val)) (h : SearchHit)
    (hc : cleanHit d = Except.ok h) :
    pyStripAttr (dictGetD d "title" (Val.str "")) = Except.ok h.title ∧
    pyStripAttr (dictGetD d "url" (Val.str "")) = Except.ok h.url ∧
    pyStripAttr (dictGetD d "snippet" (Val.str "")) = Except.ok h.snippet := by
  cases ht : pyStripAttr (dictGetD d "title" (Val.str "")) with
  | error e => simp [cleanHit, ht, Bind.bind, Except.bind] at hc
  | ok t =>
    cases hu : pyStripAttr (dictGetD d "url" (Val.str "")) with
    | error e => simp [cleanHit, ht, hu, Bind.bind, Except.bind] at hc
    | ok u =>
      cases hs : pyStripAttr (dictGetD d "snippet" (Val.str "")) with
      | error e => simp [cleanHit, ht, hu, hs, Bind.bind, Except.bind] at hc
      | ok sn =>
        have hh : h = ⟨t, u, sn⟩ := by
          simp [cleanHit, ht, hu, hs, Bind.bind, Except.bind, Pure.pure,
            Except.pure] at hc
          simp [hc]
        subst hh
        exact ⟨rfl, rfl, rfl⟩

/-- Preprocessing a one-record list succeeds exactly through `cleanHit` on
that record, yielding the singleton of its hit. -/
theorem preprocess_singleton (d : List (String × Val)) (l : List SearchHit)
    (h : preprocess_search_results (Val.list [Val.dict d]) = Except.ok l) :
    ∃ hit, cleanHit d = Except.ok hit ∧ l = [hit] := by
  rw [preprocess_search_results] at h
  rw [if_neg (by simp [truthyVal, Val.isList])] at h
  simp only [Val.items] at h
  cases hh : cleanHit d with
  | error e => simp [cleanItems, hh, Bind.bind, Except.bind] at h
  | ok hit =>
    refine ⟨hit, rfl, ?_⟩
    simp [cleanItems, hh, Bind.bind, Except.bind, Pure.pure,
      Except.pure] at h
    simp [h]

/-- Cleaning a list of dict-shaped entries succeeds positionally: one
output hit per entry, each produced by `cleanHit` on that entry. -/
theorem cleanItems_dicts_get (ds : List (List (String × Val)))
    (l : List SearchHit) (hc : cleanItems (ds.map Val.dict) = Except.ok l) :
    l.length = ds.length ∧
    ∀ (i : Nat) (h1 : i < ds.length) (h2 : i < l.length),
      cleanHit (ds.get ⟨i, h1⟩) = Except.ok (l.get ⟨i, h2⟩) := by
  induction ds generalizing l with
  | nil =>
    injection hc with h'
    subst h'
    exact ⟨rfl, fun i hi => absurd hi (Nat.not_lt_zero i)⟩
  | cons d rest ih =>
    cases hh : cleanHit d with
    | error e => simp [cleanItems, hh, Bind.bind, Except.bind] at hc
    | ok hhit =>
      cases hrest : cleanItems (rest.map Val.dict) with
      | error e => simp [cleanItems, hh, hrest, Bind.bind, Except.bind] at hc
      | ok t =>
        have hl : l = hhit :: t := by
          simp [cleanItems, hh, hrest, Bind.bind, Except.bind, Pure.pure,
            Except.pure] at hc
          simp [hc]
        subst hl
        obtain ⟨hlen, hget⟩ := ih t hrest
        refine ⟨by simp [hlen], ?_⟩
        intro i h1 h2
        cases i with
        | zero => simpa using hh
        | succ j =>
          have hj1 : j < rest.length := by simpa using h1
          have hj2 : j < t.length := by simpa using h2
          simpa using hget j hj1 hj2

/-- Claim C9 (amended): for every raw organic result, each absent field
(title, link, snippet) independently defaults to `"N/A"` in the
corresponding field (title, url, snippet) of the hit the
search-then-preprocess pipeline produces for that result — also in mixed
present/absent records; the empty-string default instead applies when
`preprocess_search_results` is fed a raw hit directly, via its
`result.get(key, "")` lookups.  The last part ties the per-result path
`pipelineHit` to the full pipeline: every organic result of a response
contributes exactly the hit that `pipelineHit` computes for it. -/
theorem claim_c9 :
    (∀ (d : List (String × Val)) (h : SearchHit),
      dictFindV d "title" = Option.none → pipelineHit d = Except.ok h →
      h.title = "N/A") ∧
    (∀ (d : List (String × Val)) (h : SearchHit),
      dictFindV d "link" = Option.none → pipelineHit d = Except.ok h →
      h.url = "N/A") ∧
    (∀ (d : List (String × Val)) (h : SearchHit),
      dictFindV d "snippet" = Option.none → pipelineHit d = Except.ok h →
      h.snippet = "N/A") ∧
    (∀ (d : List (String × Val)) (l : List SearchHit),
      dictFindV d "title" = Option.none →
      preprocess_search_results (Val.list [Val.dict d]) = Except.ok l →
      ∀ h ∈ l, h.title = "") ∧
    (∀ (d : List (String × Val)) (l : List SearchHit),
      dictFindV d "url" = Option.none →
      preprocess_search_results (Val.list [Val.dict d]) = Except.ok l →
      ∀ h ∈ l, h.url = "") ∧
    (∀ (d : List (String × Val)) (l : List SearchHit),
      dictFindV d "snippet" = Option.none →
      preprocess_search_results (Val.list [Val.dict d]) = Except.ok l →
      ∀ h ∈ l, h.snippet = "") ∧
    (∀ (entity : String) (items : List (List (String × Val)))
        (pre : List SearchHit),
      searchThenPreprocess entity (fun _ => Except.ok (Val.dict
        [("organic_results", Val.list (items.map Val.dict))])) =
          Except.ok pre →
      items ≠ [] →
      pre.length = items.length ∧
      ∀ (i : Nat) (h1 : i < items.length) (h2 : i < pre.length),
        pipelineHit (items.get ⟨i, h1⟩) = Except.ok (pre.get ⟨i, h2⟩)) := by
  refine ⟨fun d h ht hp => ?_, fun d h hl hp => ?_, fun d h hs hp => ?_,
    fun d l ht hpre => ?_, fun d l hu hpre => ?_, fun d l hs hpre => ?_,
    fun entity items pre hpre hne => ?_⟩
  · have hf := (cleanHit_fields (normEntries d) h hp).1
    rw [show dictGetD (normEntries d) "title" (Val.str "") =
        dictGetD d "title" (Val.str "N/A") from rfl] at hf
    have hd : dictGetD d "title" (Val.str "N/A") = Val.str "N/A" := by
      simp [dictGetD, ht]
    rw [hd] at hf
    have h3 : Except.ok "N/A" = Except.ok h.title := hf
    injection h3 with h4
    exact h4.symm
  · have hf := (cleanHit_fields (normEntries d) h hp).2.1
    rw [show dictGetD (normEntries d) "url" (Val.str "") =
        dictGetD d "link" (Val.str "N/A") from rfl] at hf
    have hd : dictGetD d "link" (Val.str "N/A") = Val.str "N/A" := by
      simp [dictGetD, hl]
    rw [hd] at hf
    have h3 : Except.ok "N/A" = Except.ok h.url := hf
    injection h3 with h4
    exact h4.symm
  · have hf := (cleanHit_fields (normEntries d) h hp).2.2
    rw [show dictGetD (normEntries d) "snippet" (Val.str "") =
        dictGetD d "snippet" (Val.str "N/A") from rfl] at hf
    have hd : dictGetD d "snippet" (Val.str "N/A") = Val.str "N/A" := by
      simp [dictGetD, hs]
    rw [hd] at hf
    have h3 : Except.ok "N/A" = Except.ok h.snippet := hf
    injection h3 with h4
    exact h4.symm
  · obtain ⟨hit, hclean, rfl⟩ := preprocess_singleton d l hpre
    intro x hx
    have hx2 : x = hit := by simpa using hx
    subst hx2
    have hf := (cleanHit_fields d x hclean).1
    have hd : dictGetD d "title" (Val.str "") = Val.str "" := by
      simp [dictGetD, ht]
    rw [hd] at hf
    have h3 : Except.ok "" = Except.ok x.title := hf
    injection h3 with h4
    exact h4.symm
  · obtain ⟨hit, hclean, rfl⟩ := preprocess_singleton d l hpre
    intro x hx
    have hx2 : x = hit := by simpa using hx
    subst hx2
    have hf := (cleanHit_fields d x hclean).2.1
    have hd : dictGetD d "url" (Val.str "") = Val.str "" := by
      simp [dictGetD, hu]
    rw [hd] at hf
    have h3 : Except.ok "" = Except.ok x.url := hf
    injection h3 with h4
    exact h4.symm
  · obtain ⟨hit, hclean, rfl⟩ := preprocess_singleton d l hpre
    intro x hx
    have hx2 : x = hit := by simpa using hx
    subst hx2
    have hf := (cleanHit_fields d x hclean).2.2
    have hd : dictGetD d "snippet" (Val.str "") = Val.str "" := by
      simp [dictGetD, hs]
    rw [hd] at hf
    have h3 : Except.ok "" = Except.ok x.snippet := hf
    injection h3 with h4
    exact h4.symm
  · cases items with
    | nil => exact absurd rfl hne
    | cons d0 drest =>
      have hbody : searchBody (Val.dict [("organic_results",
          Val.list ((d0 :: drest).map Val.dict))]) =
          Except.ok ((d0 :: drest).map rawHitD) := by
        rw [show searchBody (Val.dict [("organic_results",
            Val.list ((d0 :: drest).map Val.dict))]) =
            normalizeHits ((d0 :: drest).map Val.dict) from rfl]
        exact normalizeHits_dicts (d0 :: drest)
      have hsearch : (search_entity_info entity (fun _ => Except.ok (Val.dict
          [("organic_results", Val.list ((d0 :: drest).map Val.dict))]))).result =
          Except.ok ((d0 :: drest).map rawHitD) :=
        congrArg RunResult.result (retryAux_firstOk
          (fun attempt => (fun _ : Nat => Except.ok (Val.dict
            [("organic_results", Val.list ((d0 :: drest).map Val.dict))]))
            attempt >>= searchBody)
          (fun e => "Error performing search: " ++ e) (Except.ok []) 0 2
          ((d0 :: drest).map rawHitD) hbody)
      rw [searchThenPreprocess, hsearch] at hpre
      simp only [Bind.bind, Except.bind] at hpre
      rw [preprocess_search_results] at hpre
      rw [if_neg (by simp [truthyVal, Val.isList])] at hpre
      simp only [Val.items] at hpre
      have hmm : (d0 :: drest).map rawHitD =
          ((d0 :: drest).map normEntries).map Val.dict := by
        rw [List.map_map]
        rfl
      rw [hmm] at hpre
      obtain ⟨hlen, hget⟩ := cleanItems_dicts_get ((d0 :: drest).map normEntries)
        pre hpre
      refine ⟨by simpa using hlen, ?_⟩
      intro i h1 h2
      have hi2 : i < ((d0 :: drest).map normEntries).length := by simpa using h1
      have hg := hget i hi2 h2
      have hmapget : ((d0 :: drest).map normEntries).get ⟨i, hi2⟩ =
          normEntries ((d0 :: drest).get ⟨i, h1⟩) := by
        simp only [List.get_eq_getElem, List.getElem_map]
      rw [hmapget] at hg
      exact hg

/-- Witness for C9: one concrete mixed record per absent field, on both the
pipeline path (`"N/A"`) and the direct preprocessing path (`""`), plus a
one-result response traced through the whole pipeline. -/
theorem claim_c9_witness :
    (dictFindV [("link", Val.str "http://x"), ("snippet", Val.str "s")]
        "title" = Option.none ∧
      pipelineHit [("link", Val.str "http://x"), ("snippet", Val.str "s")] =
        Except.ok ⟨"N/A", "http://x", "s"⟩ ∧
      (⟨"N/A", "http://x", "s"⟩ : SearchHit).title = "N/A") ∧
    (dictFindV [("title", Val.str "T"), ("snippet", Val.str "s")] "link" =
        Option.none ∧
      pipelineHit [("title", Val.str "T"), ("snippet", Val.str "s")] =
        Except.ok ⟨"T", "N/A", "s"⟩ ∧
      (⟨"T", "N/A", "s"⟩ : SearchHit).url = "N/A") ∧
    (dictFindV [("title", Val.str "T"), ("link", Val.str "http://x")]
        "snippet" = Option.none ∧
      pipelineHit [("title", Val.str "T"), ("link", Val.str "http://x")] =
        Except.ok ⟨"T", "http://x", "N/A"⟩ ∧
      (⟨"T", "http://x", "N/A"⟩ : SearchHit).snippet = "N/A") ∧
    (dictFindV [("link", Val.str "u")] "title" = Option.none ∧
      preprocess_search_results (Val.list [Val.dict [("link", Val.str "u")]]) =
        Except.ok [⟨"", "", ""⟩] ∧
      (⟨"", "", ""⟩ : SearchHit).title = "") ∧
    (dictFindV [("title", Val.str "T")] "url" = Option.none ∧
      preprocess_search_results (Val.list [Val.dict [("title", Val.str "T")]]) =
        Except.ok [⟨"T", "", ""⟩] ∧
      (⟨"T", "", ""⟩ : SearchHit).url = "") ∧
    (dictFindV [("title", Val.str "T"), ("url", Val.str "u")] "snippet" =
        Option.none ∧
      preprocess_search_results
          (Val.list [Val.dict [("title", Val.str "T"), ("url", Val.str "u")]]) =
        Except.ok [⟨"T", "u", ""⟩] ∧
      (⟨"T", "u", ""⟩ : SearchHit).snippet = "") ∧
    (searchThenPreprocess "Acme" (fun _ => Except.ok (Val.dict
        [("organic_results",
          Val.list ([[("title", Val.str "T")]].map Val.dict))])) =
        Except.ok [⟨"T", "N/A", "N/A"⟩] ∧
      ([⟨"T", "N/A", "N/A"⟩] : List SearchHit).length =
        [[("title", Val.str "T")]].length ∧
      pipelineHit [("title", Val.str "T")] =
        Except.ok ⟨"T", "N/A", "N/A"⟩) :=
  ⟨⟨rfl, rfl, claim_c9.1 [("link", Val.str "http://x"),
      ("snippet", Val.str "s")] ⟨"N/A", "http://x", "s"⟩ rfl rfl⟩,
   ⟨rfl, rfl, claim_c9.2.1 [("title", Val.str "T"), ("snippet", Val.str "s")]
      ⟨"T", "N/A", "s"⟩ rfl rfl⟩,
   ⟨rfl, rfl, claim_c9.2.2.1 [("title", Val.str "T"),
      ("link", Val.str "http://x")] ⟨"T", "http://x", "N/A"⟩ rfl rfl⟩,
   ⟨rfl, rfl, claim_c9.2.2.2.1 [("link", Val.str "u")] [⟨"", "", ""⟩] rfl rfl
      ⟨"", "", ""⟩ (by simp)⟩,
   ⟨rfl, rfl, claim_c9.2.2.2.2.1 [("title", Val.str "T")] [⟨"T", "", ""⟩]
      rfl rfl ⟨"T", "", ""⟩ (by simp)⟩,
   ⟨rfl, rfl, claim_c9.2.2.2.2.2.1 [("title", Val.str "T"),
      ("url", Val.str "u")] [⟨"T", "u", ""⟩] rfl rfl ⟨"T", "u", ""⟩
      (by simp)⟩,
   ⟨rfl,
    (claim_c9.2.2.2.2.2.2 "Acme" [[("title", Val.str "T")]]
      [⟨"T", "N/A", "N/A"⟩] rfl (List.cons_ne_nil _ _)).1,
    (claim_c9.2.2.2.2.2.2 "Acme" [[("title", Val.str "T")]]
      [⟨"T", "N/A", "N/A"⟩] rfl (List.cons_ne_nil _ _)).2 0 (by decide)
      (by decide)⟩⟩

/-- Binding an `Except` against a pure continuation is a map. -/
theorem except_bind_pure {ε α β : Type} (e : Except ε α) (f : α → β) :
    (e >>= fun x => pure (f x)) = Except.map f e := by
  cases e <;> rfl

/-- Claim C4: when an entity's search step either raises on every outer
retry (`safe_api_call` returns `None`) or returns nothing usable (`[]`),
the loop still appends a row recording "No search results found" with empty
search fields but the NER results and query type computed in steps 1-2,
and the run proceeds with the remaining entities. -/
theorem claim_c4 (query_template : String) (inp : EntityInput)
    (rest : List EntityInput)
    (h : (safe_api_call (searchCall inp)).1 = Option.none ∨
         (safe_api_call (searchCall inp)).1 = some []) :
    runPipeline query_template (inp :: rest) =
      Except.map (fun rows =>
        (⟨inp.entity, "No search results found", "", "", "",
          perform_ner inp.nerEnts, classify_query query_template⟩ : Row) :: rows)
        (runPipeline query_template rest) := by
  have hrow : processEntity query_template inp = Except.ok
      ⟨inp.entity, "No search results found", "", "", "",
        perform_ner inp.nerEnts, classify_query query_template⟩ := by
    rcases h with h | h <;> simp [processEntity, h]
  cases hr : runPipeline query_template rest <;>
    simp [runPipeline, hrow, hr, Bind.bind, Except.bind, Except.map,
      Pure.pure, Except.pure]

/-- Witness for C4: an unreachable provider, one entity, empty rest. -/
theorem claim_c4_witness :
    ((safe_api_call (searchCall c4inp)).1 = Option.none ∨
      (safe_api_call (searchCall c4inp)).1 = some []) ∧
    runPipeline "net worth of {entity}" [c4inp] =
      Except.ok [⟨"Ghost", "No search results found", "", "", "",
        perform_ner c4inp.nerEnts, classify_query "net worth of {entity}"⟩] :=
  ⟨Or.inl rfl, by
    rw [claim_c4 "net worth of {entity}" c4inp [] (Or.inl rfl)]
    rfl⟩

/-- Claim C10: when the search succeeds with a non-empty hit list but every
outer attempt of the extraction call fails (`safe_api_call` returns
`None`), the loop records "Failed to extract" while the search title, url
and snippet columns are joined from the preprocessed hits, and the run
proceeds with the remaining entities. -/
theorem claim_c10 (query_template : String) (inp : EntityInput)
    (rest : List EntityInput) (l : List Val) (pre : List SearchHit)
    (hsearch : (safe_api_call (searchCall inp)).1 = some l)
    (hne : l ≠ [])
    (hpre : preprocess_search_results (Val.list l) = Except.ok pre)
    (hgroq : (safe_api_call (groqCall inp pre query_template
      (classify_query query_template))).1 = Option.none) :
    runPipeline query_template (inp :: rest) =
      Except.map (fun rows =>
        (⟨inp.entity, "Failed to extract",
          joinField (fun r => r.title) pre,
          joinField (fun r => r.url) pre,
          joinField (fun r => r.snippet) pre,
          perform_ner inp.nerEnts, classify_query query_template⟩ : Row) :: rows)
        (runPipeline query_template rest) := by
  cases l with
  | nil => exact absurd rfl hne
  | cons x xs =>
    have hrow : processEntity query_template inp = Except.ok
        ⟨inp.entity, "Failed to extract",
          joinField (fun r => r.title) pre,
          joinField (fun r => r.url) pre,
          joinField (fun r => r.snippet) pre,
          perform_ner inp.nerEnts, classify_query query_template⟩ := by
      simp [processEntity, hsearch, hpre, hgroq, pyOrFailed, Bind.bind,
        Except.bind]
    cases hr : runPipeline query_template rest <;>
      simp [runPipeline, hrow, hr, Bind.bind, Except.bind, Except.map,
        Pure.pure, Except.pure]

/-- Witness for C10: search succeeds at once with one hit, Groq always
fails. -/
theorem claim_c10_witness :
    (safe_api_call (searchCall c10inp)).1 =
      some [Val.dict [("title", Val.str "A"), ("url", Val.str "http://a"),
        ("snippet", Val.str "about A")]] ∧
    preprocess_search_results (Val.list [Val.dict [("title", Val.str "A"),
      ("url", Val.str "http://a"), ("snippet", Val.str "about A")]]) =
      Except.ok [⟨"A", "http://a", "about A"⟩] ∧
    (safe_api_call (groqCall c10inp [⟨"A", "http://a", "about A"⟩]
      "net worth of {entity}"
      (classify_query "net worth of {entity}"))).1 = Option.none ∧
    runPipeline "net worth of {entity}" [c10inp] =
      Except.ok [⟨"Acme", "Failed to extract", "A", "http://a", "about A",
        perform_ner c10inp.nerEnts, classify_query "net worth of {entity}"⟩] :=
  ⟨rfl, rfl, rfl, by
    rw [claim_c10 "net worth of {entity}" c10inp []
      [Val.dict [("title", Val.str "A"), ("url", Val.str "http://a"),
        ("snippet", Val.str "about A")]]
      [⟨"A", "http://a", "about A"⟩] rfl (List.cons_ne_nil _ _) rfl rfl]
    rfl⟩


/-- Overwriting the entry for `k` makes lookup of `k` yield the new value. -/
theorem find_map_set (m : List (String × String)) (k v : String)
    (h : m.any (fun p => p.1 == k) = true) :
    (m.map (fun p => if p.1 == k then (k, v) else p)).find?
      (fun p => p.1 == k) = some (k, v) := by
  induction m with
  | nil => simp at h
  | cons p m ih =>
    simp only [List.map_cons]
    by_cases hp : (p.1 == k) = true
    · rw [if_pos hp]
      exact List.find?_cons_of_pos _ (by simp)
    · rw [if_neg hp, List.find?_cons_of_neg (p := fun q : String × String => q.1 == k) _ hp]
      apply ih
      have hpf : (p.1 == k) = false := Bool.eq_false_iff.mpr hp
      simpa [List.any_cons, hpf] using h

/-- Overwriting the entry for a different key leaves lookup of `k`
unchanged. -/
theorem find_map_other (m : List (String × String)) (k' v k : String)
    (hne : (k' == k) = false) :
    (m.map (fun p => if p.1 == k' then (k', v) else p)).find?
      (fun p => p.1 == k) = m.find? (fun p => p.1 == k) := by
  induction m with
  | nil => rfl
  | cons p m ih =>
    simp only [List.map_cons]
    by_cases hp : (p.1 == k') = true
    · have hpk : (p.1 == k) = false := by
        rw [eq_of_beq hp]
        exact hne
      rw [if_pos hp, List.find?_cons_of_neg (p := fun q : String × String => q.1 == k) _ (by simp [hne]),
        List.find?_cons_of_neg (p := fun q : String × String => q.1 == k) _ (by simp [hpk])]
      exact ih
    · rw [if_neg hp]
      by_cases hk : (p.1 == k) = true
      · rw [List.find?_cons_of_pos (p := fun q : String × String => q.1 == k) _ hk,
          List.find?_cons_of_pos (p := fun q : String × String => q.1 == k) _ hk]
      · rw [List.find?_cons_of_neg (p := fun q : String × String => q.1 == k) _ hk,
          List.find?_cons_of_neg (p := fun q : String × String => q.1 == k) _ hk]
        exact ih

/-- Assignment `m[k] = v` followed by lookup of `k` yields `v`. -/
theorem pyDictFind_set_same (m : List (String × String)) (k v : String) :
    pyDictFind (pyDictSet m k v) k = some v := by
  rw [pyDictSet]
  by_cases h : m.any (fun p => p.1 == k)
  · rw [if_pos h, pyDictFind, find_map_set m k v h]
    rfl
  · rw [if_neg h, pyDictFind]
    have hfalse : m.any (fun p => p.1 == k) = false := Bool.eq_false_iff.mpr h
    have hnone : m.find? (fun p => p.1 == k) = none :=
      List.find?_eq_none.mpr (fun x hx => List.any_eq_false.mp hfalse x hx)
    rw [List.find?_append, hnone]
    simp

/-- Assignment `m[k'] = v` with `k' ≠ k` leaves lookup of `k` unchanged. -/
theorem pyDictFind_set_other (m : List (String × String)) (k' v k : String)
    (hne : (k' == k) = false) :
    pyDictFind (pyDictSet m k' v) k = pyDictFind m k := by
  rw [pyDictSet]
  by_cases h : m.any (fun p => p.1 == k')
  · rw [if_pos h, pyDictFind, find_map_other m k' v k hne, pyDictFind]
  · rw [if_neg h, pyDictFind, List.find?_append, pyDictFind]
    cases hm : m.find? (fun p => p.1 == k) <;> simp [hne]

/-- Claim C5: in the map built by `perform_ner`, each entity-type tag is
bound to the text of its last occurrence in the model's span list —
overwrite semantics, not accumulation. -/
theorem claim_c5 (ents : List EntSpan) (k : String) :
    pyDictFind (perform_ner ents) k =
      ((ents.filter (fun e => e.label == k)).getLast?).map
        (fun e => e.text) := by
  induction ents using List.reverseRecOn with
  | nil => rfl
  | append_singleton l e ih =>
    have hfold : perform_ner (l ++ [e]) =
        pyDictSet (perform_ner l) e.label e.text := by
      simp [perform_ner, List.foldl_append]
    rw [hfold]
    by_cases he : (e.label == k) = true
    · rw [eq_of_beq he, pyDictFind_set_same]
      have hfilter : (l ++ [e]).filter (fun e => e.label == k) =
          l.filter (fun e => e.label == k) ++ [e] := by
        rw [List.filter_append]
        simp [he]
      rw [hfilter, List.getLast?_concat]
      rfl
    · have hne2 : (e.label == k) = false := Bool.eq_false_iff.mpr he
      rw [pyDictFind_set_other _ _ _ _ hne2, ih, List.filter_append]
      simp [hne2]

/-- Dropping a prefix by a predicate is idempotent. -/
theorem dropWhile_idem {α : Type} (p : α → Bool) (l : List α) :
    (l.dropWhile p).dropWhile p = l.dropWhile p := by
  induction l with
  | nil => rfl
  | cons a l ih =>
    by_cases h : p a = true
    · rw [List.dropWhile_cons_of_pos h]
      exact ih
    · rw [List.dropWhile_cons_of_neg h, List.dropWhile_cons_of_neg h]

/-- If `dropWhile` leaves a non-empty list unchanged, its head fails the
predicate. -/
theorem dropWhile_self_head {α : Type} (p : α → Bool) (a : α) (t : List α)
    (h : (a :: t).dropWhile p = a :: t) : p a = false := by
  by_cases hpa : p a = true
  · rw [List.dropWhile_cons_of_pos hpa] at h
    have hsub : t.dropWhile p <:+ t := List.dropWhile_suffix p
    rw [h] at hsub
    have := hsub.length_le
    simp at this
  · exact Bool.eq_false_iff.mpr hpa

/-- Right-trimming yields a prefix of the input. -/
theorem trimRightC_prefixOfSelf (l : List Char) : trimRightC l <+: l := by
  rw [trimRightC]
  have hsuf : l.reverse.dropWhile isPySpace <:+ l.reverse :=
    List.dropWhile_suffix _
  have hpre := hsuf.reverse
  simpa using hpre

/-- A left-trimmed list stays left-trimmed after right-trimming. -/
theorem trimLeftC_trimRightC (m : List Char) (h : trimLeftC m = m) :
    trimLeftC (trimRightC m) = trimRightC m := by
  cases htr : trimRightC m with
  | nil => rfl
  | cons a t =>
    obtain ⟨s, hs⟩ := trimRightC_prefixOfSelf m
    rw [htr] at hs
    have hm : (a :: (t ++ s)).dropWhile isPySpace = a :: (t ++ s) := by
      have hm' : m = a :: (t ++ s) := by
        rw [← hs]
        simp
      rw [← hm']
      exact h
    have hpa := dropWhile_self_head isPySpace a (t ++ s) hm
    rw [trimLeftC, List.dropWhile_cons_of_neg (by simp [hpa])]

/-- Right-trimming is idempotent. -/
theorem trimRightC_idem (l : List Char) :
    trimRightC (trimRightC l) = trimRightC l := by
  rw [trimRightC, trimRightC, List.reverse_reverse, dropWhile_idem]

/-- Python `strip` is idempotent on character lists. -/
theorem stripC_idem (l : List Char) : stripC (stripC l) = stripC l := by
  rw [stripC, stripC]
  rw [trimLeftC_trimRightC (trimLeftC l) (dropWhile_idem isPySpace l)]
  exact trimRightC_idem _

/-- Python `strip` is idempotent. -/
theorem pyStrip_idem (s : String) : pyStrip (pyStrip s) = pyStrip s := by
  rw [pyStrip, pyStrip]
  rw [show (String.mk (stripC s.data)).data = stripC s.data from rfl,
    stripC_idem]

/-- Whatever `v.strip()` successfully returns is itself strip-fixed. -/
theorem pyStripAttr_fix (v : Val) (t : String)
    (h : pyStripAttr v = Except.ok t) : pyStrip t = t := by
  cases v with
  | str s =>
    injection h with h'
    rw [← h']
    exact pyStrip_idem s
  | none => simp [pyStripAttr] at h
  | int n => simp [pyStripAttr] at h
  | list l => simp [pyStripAttr] at h
  | dict d => simp [pyStripAttr] at h

/-- Every hit produced by `cleanHit` has strip-fixed fields. -/
theorem cleanHit_stripFixed (d : List (String × Val)) (h : SearchHit)
    (hc : cleanHit d = Except.ok h) : StripFixed h := by
  cases ht : pyStripAttr (dictGetD d "title" (Val.str "")) with
  | error e => simp [cleanHit, ht, Bind.bind, Except.bind] at hc
  | ok t =>
    cases hu : pyStripAttr (dictGetD d "url" (Val.str "")) with
    | error e => simp [cleanHit, ht, hu, Bind.bind, Except.bind] at hc
    | ok u =>
      cases hs : pyStripAttr (dictGetD d "snippet" (Val.str "")) with
      | error e => simp [cleanHit, ht, hu, hs, Bind.bind, Except.bind] at hc
      | ok sn =>
        have hh : h = ⟨t, u, sn⟩ := by
          simp [cleanHit, ht, hu, hs, Bind.bind, Except.bind, Pure.pure,
            Except.pure] at hc
          simp [hc]
        subst hh
        exact ⟨pyStripAttr_fix _ _ ht, pyStripAttr_fix _ _ hu,
          pyStripAttr_fix _ _ hs⟩

/-- Every hit in a successful `cleanItems` output has strip-fixed fields. -/
theorem cleanItems_stripFixed (items : List Val) (l : List SearchHit)
    (hc : cleanItems items = Except.ok l) : ∀ h ∈ l, StripFixed h := by
  induction items generalizing l with
  | nil =>
    injection hc with h'
    subst h'
    intro x hx
    cases hx
  | cons v rest ih =>
    cases v with
    | dict d =>
      cases hh : cleanHit d with
      | error e => simp [cleanItems, hh, Bind.bind, Except.bind] at hc
      | ok hhit =>
        cases hrest : cleanItems rest with
        | error e =>
          simp [cleanItems, hh, hrest, Bind.bind, Except.bind] at hc
        | ok t =>
          have hl : l = hhit :: t := by
            simp [cleanItems, hh, hrest, Bind.bind, Except.bind, Pure.pure,
              Except.pure] at hc
            simp [hc]
          subst hl
          intro x hx
          rcases List.mem_cons.mp hx with hx' | hx'
          · rw [hx']
            exact cleanHit_stripFixed d hhit hh
          · exact ih t hrest x hx'
    | none => exact ih l hc
    | str s => exact ih l hc
    | int n => exact ih l hc
    | list xs => exact ih l hc

/-- Cleaning the dict re-injected from a hit strips each field. -/
theorem cleanHit_hitVal (h : SearchHit) :
    cleanHit [("title", Val.str h.title), ("url", Val.str h.url),
        ("snippet", Val.str h.snippet)] =
      Except.ok ⟨pyStrip h.title, pyStrip h.url, pyStrip h.snippet⟩ := rfl

/-- Re-cleaning a list of strip-fixed hits returns it unchanged. -/
theorem cleanItems_round (l : List SearchHit) (hf : ∀ h ∈ l, StripFixed h) :
    cleanItems (l.map hitVal) = Except.ok l := by
  induction l with
  | nil => rfl
  | cons h t ih =>
    have hh := hf h (List.mem_cons_self h t)
    have hrest := ih (fun x hx => hf x (List.mem_cons_of_mem _ hx))
    have hclean : cleanHit [("title", Val.str h.title), ("url", Val.str h.url),
        ("snippet", Val.str h.snippet)] = Except.ok h := by
      rw [cleanHit_hitVal, hh.1, hh.2.1, hh.2.2]
    simp [cleanItems, hitVal, hclean, hrest, Bind.bind, Except.bind,
      Pure.pure, Except.pure]

/-- Claim C8: `preprocess_search_results` is idempotent — re-running it on
the canonical dicts of its own successful output returns the same list. -/
theorem claim_c8 (v : Val) (l : List SearchHit)
    (h : preprocess_search_results v = Except.ok l) :
    preprocess_search_results (Val.list (l.map hitVal)) = Except.ok l := by
  rw [preprocess_search_results] at h
  by_cases hg : (!truthyVal v || !v.isList) = true
  · rw [if_pos hg] at h
    injection h with h'
    subst h'
    rfl
  · rw [if_neg hg] at h
    have hfix := cleanItems_stripFixed v.items l h
    cases l with
    | nil => rfl
    | cons x t =>
      rw [preprocess_search_results,
        if_neg (by simp [truthyVal, Val.isList] :
          ¬ ((!truthyVal (Val.list ((x :: t).map hitVal)) ||
              !(Val.list ((x :: t).map hitVal)).isList) = true))]
      exact cleanItems_round (x :: t) hfix

/-- Witness for C8 at a one-hit input needing trimming. -/
theorem claim_c8_witness :
    preprocess_search_results (Val.list [Val.dict [("title", Val.str " a ")]]) =
      Except.ok [⟨"a", "", ""⟩] ∧
    preprocess_search_results
        (Val.list (([⟨"a", "", ""⟩] : List SearchHit).map hitVal)) =
      Except.ok [⟨"a", "", ""⟩] :=
  ⟨rfl, claim_c8 (Val.list [Val.dict [("title", Val.str " a ")]])
    [⟨"a", "", ""⟩] rfl⟩
